import Mathlib

/-!
Verification of the `simply::Thread` handle lifecycle from the
simply-concurrency single-header library (concurrency.hpp).

The embedding is shallow and functional:

* A Windows `HANDLE` referring to a thread is modelled as a record holding
  the raw handle bits together with the thread identifier that the OS call
  GetThreadId reports for it.
* The private member `Thread::_handle` (a `HANDLE` that is `nullptr` in the
  NULL-thread state) becomes `Option HANDLE`.
* `GetCurrentThreadId()` is an ambient OS query, so every operation that
  consults it takes an explicit `cur : DWORD` argument: the identifier of
  the thread executing the call.
* C++ operations that mutate the member through a reference and may throw
  are modelled as functions returning `Option SysError × (new state)`:
  the first component is the thrown exception (if any) and the second is
  the value of the member(s) after the call, faithfully reflecting which
  mutations happen before the throw.
* Outcomes of OS calls (thread creation, SetThreadPriority, ResumeThread,
  WaitForSingleObject, CloseHandle) are inputs of the model, since the OS
  may answer either way.
-/

namespace Simply

/-- Windows DWORD (thread identifiers, error codes). -/
abbrev DWORD := Nat

/-- A native thread handle: raw handle bits plus the thread identifier the
OS reports for it via GetThreadId. The member `Thread::_handle` is
`Option HANDLE`, with `none` standing for `nullptr`. -/
structure HANDLE where
  value : Nat
  tid : DWORD
deriving DecidableEq, Repr

/-- `Thread::id`: wraps a DWORD, following the source class with its single
`_id` member. -/
structure ThreadId where
  toDWORD : DWORD
deriving DecidableEq, Repr

/-- Source `operator!=(id lhs, id rhs)` : `lhs._id != rhs._id`. -/
def ThreadId.neq (lhs rhs : ThreadId) : Bool :=
  lhs.toDWORD != rhs.toDWORD

/-- The `simply::Thread` object: a single `_handle` member. -/
structure Thread where
  handle : Option HANDLE
deriving DecidableEq, Repr

/-- `enum class Thread::Priority`. -/
inductive Priority where
  | LOWEST
  | LOW
  | NORMAL
  | HIGH
  | HIGHEST
  | TIME_CRITICAL
deriving DecidableEq, Repr

/-- The underlying integral value of each `Priority` enumerator
(enum class with default numbering 0..5). -/
def Priority.toRaw : Priority → Nat
  | .LOWEST => 0
  | .LOW => 1
  | .NORMAL => 2
  | .HIGH => 3
  | .HIGHEST => 4
  | .TIME_CRITICAL => 5

/-- All enumerators of the closed `Priority` enumeration. -/
def Priority.all : List Priority :=
  [.LOWEST, .LOW, .NORMAL, .HIGH, .HIGHEST, .TIME_CRITICAL]

/-- `Thread::Options`: an optional priority. -/
structure Options where
  priority : Option Priority
deriving DecidableEq, Repr

/-- Error taxonomy of the library. Every failure is a `std::system_error`;
we distinguish the invalid-operation errors the library raises itself
(`std::errc::invalid_argument` plus a message) from OS error codes
(`errno` or `GetLastError` with `std::system_category`). -/
inductive OpName where
  | joinOp
  | detachOp
  | nativeHandleOp
deriving DecidableEq, Repr

inductive SysError where
  | invalidOperation (which : OpName)
  | osError (code : Nat)
deriving DecidableEq, Repr

-- Windows thread-priority constants from windows.h.
def THREAD_PRIORITY_LOWEST : Int := -2
def THREAD_PRIORITY_BELOW_NORMAL : Int := -1
def THREAD_PRIORITY_NORMAL : Int := 0
def THREAD_PRIORITY_ABOVE_NORMAL : Int := 1
def THREAD_PRIORITY_HIGHEST : Int := 2
def THREAD_PRIORITY_TIME_CRITICAL : Int := 15

/-- The `switch ( opt.priority.value() )` statement inside `_start`,
modelled over the underlying integral value of the scrutinee so that the
defensive `default:` branch is present exactly as in the source. Returns
the chosen OS priority constant together with a flag recording whether the
`default:` branch was taken. -/
def prioritySwitchRaw (v : Nat) : Int × Bool :=
  match v with
  | 0 => (THREAD_PRIORITY_LOWEST, false)
  | 1 => (THREAD_PRIORITY_BELOW_NORMAL, false)
  | 2 => (THREAD_PRIORITY_NORMAL, false)
  | 3 => (THREAD_PRIORITY_ABOVE_NORMAL, false)
  | 4 => (THREAD_PRIORITY_HIGHEST, false)
  | 5 => (THREAD_PRIORITY_TIME_CRITICAL, false)
  | _ => (THREAD_PRIORITY_NORMAL, true)

/-- The creation-time mapping from `Priority` to the OS constant, i.e. the
switch applied to a valid enumerator. -/
def priorityToOS (p : Priority) : Int :=
  (prioritySwitchRaw p.toRaw).1

/-- Modelled from the spec: the repository's tests
(src/tests/01_basics.cpp, ThreadBasics.SetPriority) call
`Thread::get_priority` and `this_thread::get_priority`, but those
functions are absent from the header under src/. Per the spec, a thread
started with a priority "reports that same priority when queried from
inside itself", so the getter is modelled as reading the OS priority value
of the current thread (GetThreadPriority) and translating it back to the
`Priority` enumeration, inverting the creation-time table of section 4.2. -/
def osToPriority (v : Int) : Option Priority :=
  if v = THREAD_PRIORITY_LOWEST then some .LOWEST
  else if v = THREAD_PRIORITY_BELOW_NORMAL then some .LOW
  else if v = THREAD_PRIORITY_NORMAL then some .NORMAL
  else if v = THREAD_PRIORITY_ABOVE_NORMAL then some .HIGH
  else if v = THREAD_PRIORITY_HIGHEST then some .HIGHEST
  else if v = THREAD_PRIORITY_TIME_CRITICAL then some .TIME_CRITICAL
  else none

/-- Outcomes the OS can give for the calls `_start` makes. `created` is the
result of `_beginthreadex` (`none` models a null return), `errnoVal` the
value of `errno` at that point, `setPriorityOk` and `resumeOk` whether
SetThreadPriority and ResumeThread succeed, and `lastError` the value
GetLastError reports after a failed call. -/
structure OSBehavior where
  created : Option HANDLE
  errnoVal : Nat
  setPriorityOk : Bool
  resumeOk : Bool
  lastError : Nat
deriving DecidableEq, Repr

/-- The observable outcome of `_start`: the final value of the `handle`
reference, the exception thrown (if any), whether CREATE_SUSPENDED was used,
the OS constant passed to SetThreadPriority (if reached), whether
`_cleanup_suspended` ran (TerminateThread + CloseHandle on the suspended
thread), and whether ResumeThread succeeded. -/
structure StartResult where
  handle : Option HANDLE
  thrown : Option SysError
  createdSuspended : Bool
  osPriorityArg : Option Int
  cleanupRan : Bool
  resumed : Bool
deriving DecidableEq, Repr

/-- `_cleanup_suspended`: TerminateThread, CloseHandle, `handle = nullptr`. -/
def _cleanup_suspended (_h : HANDLE) : Option HANDLE :=
  none

/-- `_start(HANDLE& handle, const Thread::Options& opt, ...)`.
Faithful to the source control flow: `creation_flag` is CREATE_SUSPENDED
iff a priority is requested; a null return from `_beginthreadex` throws
`system_error(errno, system_category())` immediately; otherwise, when the
flag was set, the switch picks the OS priority, SetThreadPriority failure
runs `_cleanup_suspended` and throws GetLastError, then ResumeThread
failure does the same; on success the handle stays set. The payload
marshalling (`_invoke`, the tuple copy) carries no lifecycle state and is
outside the model. -/
def _start (opt : Options) (os : OSBehavior) : StartResult :=
  match os.created with
  | none =>
    { handle := none
      thrown := some (SysError.osError os.errnoVal)
      createdSuspended := opt.priority.isSome
      osPriorityArg := none
      cleanupRan := false
      resumed := false }
  | some h =>
    match opt.priority with
    | some p =>
      let osPrio := (prioritySwitchRaw p.toRaw).1
      if os.setPriorityOk then
        if os.resumeOk then
          { handle := some h, thrown := none, createdSuspended := true
            osPriorityArg := some osPrio, cleanupRan := false, resumed := true }
        else
          { handle := _cleanup_suspended h
            thrown := some (SysError.osError os.lastError)
            createdSuspended := true, osPriorityArg := some osPrio
            cleanupRan := true, resumed := false }
      else
        { handle := _cleanup_suspended h
          thrown := some (SysError.osError os.lastError)
          createdSuspended := true, osPriorityArg := some osPrio
          cleanupRan := true, resumed := false }
    | none =>
      { handle := some h, thrown := none, createdSuspended := false
        osPriorityArg := none, cleanupRan := false, resumed := false }

/-- Result of `WaitForSingleObject(handle, ms_timeout)` as `_join`
distinguishes it: WAIT_OBJECT_0, WAIT_TIMEOUT, or any other return
(WAIT_FAILED / WAIT_ABANDONED), the latter carrying GetLastError. -/
inductive WaitResult where
  | object0
  | timeout
  | failed (err : Nat)
deriving DecidableEq, Repr

/-- Result of `WaitForSingleObject(handle, INFINITE)`: an infinite wait
never reports WAIT_TIMEOUT, so only the other two outcomes exist. -/
inductive InfWait where
  | object0
  | failed (err : Nat)
deriving DecidableEq, Repr

def InfWait.toWait : InfWait → WaitResult
  | .object0 => .object0
  | .failed e => .failed e

/-- `_join(HANDLE& handle, size_t ms_timeout)`: on WAIT_OBJECT_0 close the
handle, null it and return true; on WAIT_TIMEOUT return false with the
handle untouched; otherwise throw GetLastError with the handle untouched.
Returns (thrown exception, returned bool, handle after); when an exception
is thrown no bool is actually returned in C++, the middle component is then
a filler. -/
def _join (h : Option HANDLE) (res : WaitResult) :
    Option SysError × Bool × Option HANDLE :=
  match res with
  | .object0 => (none, true, none)
  | .timeout => (none, false, h)
  | .failed e => (some (SysError.osError e), false, h)

/-- `_thread_id`: GetThreadId on the handle. -/
def _thread_id (h : HANDLE) : DWORD :=
  h.tid

/-- `_detach(HANDLE& handle)`: CloseHandle, throwing GetLastError on
failure (before the member is nulled), else `handle = nullptr`.
`closeOk` is the CloseHandle outcome, `err` the GetLastError value. -/
def _detach (h : Option HANDLE) (closeOk : Bool) (err : Nat) :
    Option SysError × Option HANDLE :=
  if closeOk then (none, none)
  else (some (SysError.osError err), h)

/-- `this_thread::get_id()`: `Thread::id()` built from
GetCurrentThreadId, i.e. from the ambient `cur`. -/
def this_thread.get_id (cur : DWORD) : ThreadId :=
  ThreadId.mk cur

/-- `Thread::Thread()` : `_handle(nullptr)`. -/
def Thread.default : Thread :=
  Thread.mk none

/-- `Thread::get_id()`: the id of the native thread when `_handle` is
non-null, else a default-constructed id (the calling thread's own id). -/
def Thread.get_id (t : Thread) (cur : DWORD) : ThreadId :=
  match t.handle with
  | some h => ThreadId.mk (_thread_id h)
  | none => ThreadId.mk cur

/-- `Thread::joinable()` : `get_id() != this_thread::get_id()`. -/
def Thread.joinable (t : Thread) (cur : DWORD) : Bool :=
  ThreadId.neq (t.get_id cur) (this_thread.get_id cur)

/-- `Thread::join()`: throw invalid_argument when not joinable, else
`_join(_handle, INFINITE)`. Returns (thrown exception, object after). -/
def Thread.join (t : Thread) (cur : DWORD) (res : InfWait) :
    Option SysError × Thread :=
  if t.joinable cur then
    let out := _join t.handle res.toWait
    (out.1, Thread.mk out.2.2)
  else
    (some (SysError.invalidOperation OpName.joinOp), t)

/-- `Thread::join(size_t ms_timeout)`: throw invalid_argument when not
joinable, else return `_join(_handle, ms_timeout)`. Returns
(thrown exception, returned bool, object after); the bool is a filler
when an exception is thrown. -/
def Thread.joinTimeout (t : Thread) (cur : DWORD) (res : WaitResult) :
    Option SysError × Bool × Thread :=
  if t.joinable cur then
    let out := _join t.handle res
    (out.1, out.2.1, Thread.mk out.2.2)
  else
    (some (SysError.invalidOperation OpName.joinOp), false, t)

/-- `Thread::detach()`: throw invalid_argument when not joinable, else
`_detach(_handle)`. -/
def Thread.detach (t : Thread) (cur : DWORD) (closeOk : Bool) (err : Nat) :
    Option SysError × Thread :=
  if t.joinable cur then
    let out := _detach t.handle closeOk err
    (out.1, Thread.mk out.2)
  else
    (some (SysError.invalidOperation OpName.detachOp), t)

/-- `Thread::native_handle()`: throw invalid_argument when not joinable,
else return the raw `_handle` member. -/
def Thread.native_handle (t : Thread) (cur : DWORD) :
    Except SysError (Option HANDLE) :=
  if t.joinable cur then Except.ok t.handle
  else Except.error (SysError.invalidOperation OpName.nativeHandleOp)

/-- `Thread::Thread(Thread&& other)`: default-construct, then swap handles
with `other`. Returns (constructed destination, source after). Total and
non-throwing, as declared noexcept. -/
def Thread.moveConstruct (other : Thread) : Thread × Thread :=
  (Thread.mk other.handle, Thread.mk none)

/-- `Thread::operator=(Thread&& other)`: `if (joinable()) join();` then
swap handles. When the implicit unbounded join throws, the exception
propagates before the swap, leaving both objects as the join left them.
Returns (thrown exception, destination after, source after). -/
def Thread.moveAssign (dst src : Thread) (cur : DWORD) (res : InfWait) :
    Option SysError × Thread × Thread :=
  if dst.joinable cur then
    let out := dst.join cur res
    match out.1 with
    | some e => (some e, out.2, src)
    | none => (none, Thread.mk src.handle, Thread.mk out.2.handle)
  else
    (none, Thread.mk src.handle, Thread.mk dst.handle)

/-- `Thread::swap`: exchange the `_handle` members. Total and
non-throwing, as declared noexcept. Returns both objects after. -/
def Thread.swap (t other : Thread) : Thread × Thread :=
  (Thread.mk other.handle, Thread.mk t.handle)

/-- `std::swap(simply::Thread&, simply::Thread&)` : `x.swap(y)`. -/
def stdSwap (x y : Thread) : Thread × Thread :=
  Thread.swap x y

/-! Helper lemmas shared by the claim theorems. -/

theorem joinable_none (cur : DWORD) : (Thread.mk none).joinable cur = false := by
  simp [Thread.joinable, Thread.get_id, ThreadId.neq, this_thread.get_id]

theorem joinable_some (h : HANDLE) (cur : DWORD) :
    (Thread.mk (some h)).joinable cur = (h.tid != cur) := by
  simp [Thread.joinable, Thread.get_id, ThreadId.neq, this_thread.get_id, _thread_id]

theorem joinable_eq_false_of_handle_none (t : Thread) (cur : DWORD)
    (hh : t.handle = none) : t.joinable cur = false := by
  obtain ⟨hd⟩ := t
  cases hh
  exact joinable_none cur

theorem join_ok_handle (t : Thread) (cur : DWORD) (res : InfWait) (t' : Thread)
    (hj : t.join cur res = (none, t')) : t' = Thread.mk none := by
  unfold Thread.join at hj
  by_cases hb : t.joinable cur
  · simp only [hb, if_true] at hj
    cases res with
    | object0 =>
      simp [_join, InfWait.toWait] at hj
      obtain ⟨h1⟩ := t'
      simp_all
    | failed e =>
      simp [_join, InfWait.toWait] at hj
  · simp [hb] at hj

/-- C1: while the handle is LIVE, get_id returns the owned native thread's
id; while EMPTY it returns the calling thread's own current id; joinable is
true iff the handle is LIVE and its id differs from the calling thread's
current id; hence a default-constructed, moved-from, joined or detached
handle has joinable false and get_id equal to this_thread.get_id, observed
from the owning thread. -/
theorem C1_identity (t : Thread) (cur : DWORD) :
    (∀ h : HANDLE, t.handle = some h → t.get_id cur = ThreadId.mk (_thread_id h))
    ∧ (t.handle = none → t.get_id cur = this_thread.get_id cur)
    ∧ (t.joinable cur = true ↔ ∃ h : HANDLE, t.handle = some h ∧ h.tid ≠ cur)
    ∧ (Thread.default.joinable cur = false
        ∧ Thread.default.get_id cur = this_thread.get_id cur)
    ∧ ((Thread.moveConstruct t).2.joinable cur = false
        ∧ (Thread.moveConstruct t).2.get_id cur = this_thread.get_id cur)
    ∧ (∀ (res : InfWait) (t' : Thread), t.join cur res = (none, t') →
        t'.joinable cur = false ∧ t'.get_id cur = this_thread.get_id cur)
    ∧ (∀ (ok : Bool) (e : Nat) (t' : Thread), t.detach cur ok e = (none, t') →
        t'.joinable cur = false ∧ t'.get_id cur = this_thread.get_id cur) := by
  obtain ⟨hd⟩ := t
  refine ⟨?_, ?_, ?_, ?_, ?_, ?_, ?_⟩
  · intro h hh
    cases hd with
    | none => cases hh
    | some h0 =>
      cases hh
      rfl
  · intro hh
    cases hh
    rfl
  · cases hd with
    | none =>
      simp only [joinable_none]
      constructor
      · intro hc
        cases hc
      · rintro ⟨h, hh, -⟩
        cases hh
    | some h0 =>
      rw [joinable_some]
      constructor
      · intro hb
        exact ⟨h0, rfl, by simpa using hb⟩
      · rintro ⟨h, hh, hne⟩
        cases hh
        simpa using hne
  · exact ⟨joinable_none cur, rfl⟩
  · exact ⟨joinable_none cur, rfl⟩
  · intro res t' hj
    have := join_ok_handle (Thread.mk hd) cur res t' hj
    cases this
    exact ⟨joinable_none cur, rfl⟩
  · intro ok e t' hdet
    unfold Thread.detach _detach at hdet
    by_cases hb : (Thread.mk hd).joinable cur
    · cases ok with
      | true =>
        simp only [hb, if_true] at hdet
        have ht' : t' = Thread.mk none := by
          simpa using (congrArg Prod.snd hdet).symm
        subst ht'
        exact ⟨joinable_none cur, rfl⟩
      | false =>
        simp [hb] at hdet
    · simp [hb] at hdet

/-- Witness for C1 at a concrete LIVE handle observed from thread 0. -/
theorem C1_identity_witness :
    (Thread.mk (some (HANDLE.mk 1 5))).get_id 0 = ThreadId.mk 5
    ∧ (Thread.mk (some (HANDLE.mk 1 5))).joinable 0 = true
    ∧ Thread.default.joinable 0 = false := by
  have h := C1_identity (Thread.mk (some (HANDLE.mk 1 5))) 0
  exact ⟨h.1 (HANDLE.mk 1 5) rfl,
    h.2.2.1.mpr ⟨HANDLE.mk 1 5, rfl, by decide⟩,
    h.2.2.2.1.1⟩

/-- C2: join, join(timeout) and detach on a non-joinable handle (EMPTY,
joined, detached, moved-from, or observed from the spawned thread itself)
fail with the invalid-operation error and leave the object unchanged;
after a successful join a second join fails the same way. -/
theorem C2_invalid_ops (t : Thread) (cur : DWORD) :
    (t.joinable cur = false →
      (∀ res : InfWait, t.join cur res
          = (some (SysError.invalidOperation OpName.joinOp), t))
      ∧ (∀ res : WaitResult, t.joinTimeout cur res
          = (some (SysError.invalidOperation OpName.joinOp), false, t))
      ∧ (∀ (ok : Bool) (e : Nat), t.detach cur ok e
          = (some (SysError.invalidOperation OpName.detachOp), t)))
    ∧ (∀ (res res2 : InfWait) (t' : Thread), t.join cur res = (none, t') →
        t'.join cur res2
          = (some (SysError.invalidOperation OpName.joinOp), t')) := by
  constructor
  · intro hb
    refine ⟨?_, ?_, ?_⟩
    · intro res
      simp [Thread.join, hb]
    · intro res
      simp [Thread.joinTimeout, hb]
    · intro ok e
      simp [Thread.detach, hb]
  · intro res res2 t' hj
    have ht' := join_ok_handle t cur res t' hj
    cases ht'
    simp [Thread.join, joinable_none]

/-- Witness for C2: a NULL thread rejects join, timed join and detach, and
a joined thread rejects a second join. -/
theorem C2_invalid_ops_witness :
    (Thread.mk none).join 0 InfWait.object0
        = (some (SysError.invalidOperation OpName.joinOp), Thread.mk none)
    ∧ (Thread.mk none).joinTimeout 0 WaitResult.timeout
        = (some (SysError.invalidOperation OpName.joinOp), false, Thread.mk none)
    ∧ (Thread.mk none).detach 0 true 0
        = (some (SysError.invalidOperation OpName.detachOp), Thread.mk none)
    ∧ (Thread.mk none).join 0 (InfWait.failed 7)
        = (some (SysError.invalidOperation OpName.joinOp), Thread.mk none) := by
  have h := C2_invalid_ops (Thread.mk none) 0
  have hb : (Thread.mk none).joinable 0 = false := by decide
  exact ⟨(h.1 hb).1 InfWait.object0, (h.1 hb).2.1 WaitResult.timeout,
    (h.1 hb).2.2 true 0, (h.1 hb).1 (InfWait.failed 7)⟩

/-- C3: when a priority is requested, creation uses CREATE_SUSPENDED; if
SetThreadPriority or ResumeThread fails, the suspended thread is
terminated and released, the handle is left null (EMPTY) and an OS error
built from GetLastError is thrown; if the thread-creation call itself
fails, the constructor throws the errno-based OS error immediately and the
suspended-thread cleanup never runs. -/
theorem C3_priority_startup (opt : Options) (os : OSBehavior) (p : Priority)
    (hp : opt.priority = some p) :
    ((_start opt os).createdSuspended = true)
    ∧ (os.created = none →
        _start opt os = StartResult.mk none
          (some (SysError.osError os.errnoVal)) true none false false)
    ∧ (∀ h : HANDLE, os.created = some h → os.setPriorityOk = false →
        _start opt os = StartResult.mk none
          (some (SysError.osError os.lastError)) true
          (some (priorityToOS p)) true false)
    ∧ (∀ h : HANDLE, os.created = some h → os.setPriorityOk = true →
        os.resumeOk = false →
        _start opt os = StartResult.mk none
          (some (SysError.osError os.lastError)) true
          (some (priorityToOS p)) true false)
    ∧ (∀ h : HANDLE, os.created = some h → os.setPriorityOk = true →
        os.resumeOk = true →
        _start opt os = StartResult.mk (some h) none true
          (some (priorityToOS p)) false true) := by
  obtain ⟨created, errnoVal, setPriorityOk, resumeOk, lastError⟩ := os
  refine ⟨?_, ?_, ?_, ?_, ?_⟩
  · cases created with
    | none => simp [_start, hp]
    | some h =>
      cases setPriorityOk <;> cases resumeOk <;>
        simp [_start, hp, priorityToOS, _cleanup_suspended]
  · intro hc
    cases hc
    simp [_start, hp]
  · intro h hc hsp
    cases hc
    cases hsp
    simp [_start, hp, priorityToOS, _cleanup_suspended]
  · intro h hc hsp hr
    cases hc
    cases hsp
    cases hr
    simp [_start, hp, priorityToOS, _cleanup_suspended]
  · intro h hc hsp hr
    cases hc
    cases hsp
    cases hr
    simp [_start, hp, priorityToOS]

/-- Witness for C3 at concrete OS outcomes: a failed SetThreadPriority on
a suspended creation cleans up and throws, and a failed creation throws
with no cleanup. -/
theorem C3_priority_startup_witness :
    _start (Options.mk (some Priority.HIGH))
        (OSBehavior.mk (some (HANDLE.mk 4 9)) 11 false true 33)
      = StartResult.mk none (some (SysError.osError 33)) true
          (some THREAD_PRIORITY_ABOVE_NORMAL) true false
    ∧ _start (Options.mk (some Priority.HIGH))
        (OSBehavior.mk none 11 true true 33)
      = StartResult.mk none (some (SysError.osError 11)) true
          none false false := by
  have h1 := C3_priority_startup (Options.mk (some Priority.HIGH))
    (OSBehavior.mk (some (HANDLE.mk 4 9)) 11 false true 33) Priority.HIGH rfl
  have h2 := C3_priority_startup (Options.mk (some Priority.HIGH))
    (OSBehavior.mk none 11 true true 33) Priority.HIGH rfl
  exact ⟨h1.2.2.1 (HANDLE.mk 4 9) rfl rfl, h2.2.1 rfl⟩

/-- C4: for a joinable handle, timed join returns true and leaves the
handle EMPTY (native reference released) when the wait reports
termination, and returns false with the object unchanged (still LIVE)
when the bound elapses; neither outcome throws. -/
theorem C4_timed_join (t : Thread) (cur : DWORD) (hb : t.joinable cur = true) :
    t.joinTimeout cur WaitResult.object0 = (none, true, Thread.mk none)
    ∧ t.joinTimeout cur WaitResult.timeout = (none, false, t)
    ∧ t.handle.isSome = true := by
  obtain ⟨hd⟩ := t
  cases hd with
  | none =>
    rw [joinable_none] at hb
    cases hb
  | some h =>
    refine ⟨?_, ?_, rfl⟩ <;> simp [Thread.joinTimeout, hb, _join]

/-- Witness for C4 at a concrete LIVE handle observed from thread 0. -/
theorem C4_timed_join_witness :
    (Thread.mk (some (HANDLE.mk 1 5))).joinTimeout 0 WaitResult.object0
        = (none, true, Thread.mk none)
    ∧ (Thread.mk (some (HANDLE.mk 1 5))).joinTimeout 0 WaitResult.timeout
        = (none, false, Thread.mk (some (HANDLE.mk 1 5))) := by
  have h := C4_timed_join (Thread.mk (some (HANDLE.mk 1 5))) 0 (by decide)
  exact ⟨h.1, h.2.1⟩

/-- C6: the mapping from the closed Priority enumeration to OS
scheduling-class constants is total: every enumerator is covered, each
maps to exactly one OS value (and those values are pairwise distinct), and
the defensive default branch of the switch is never taken for any valid
enumerator. -/
theorem C6_priority_mapping :
    (∀ p : Priority, p ∈ Priority.all)
    ∧ (∀ p : Priority, (prioritySwitchRaw p.toRaw).2 = false)
    ∧ (∀ p : Priority, (prioritySwitchRaw p.toRaw).1 = priorityToOS p)
    ∧ (Priority.all.map priorityToOS).Nodup := by
  refine ⟨?_, ?_, ?_, ?_⟩
  · intro p
    cases p <;> simp [Priority.all]
  · intro p
    cases p <;> rfl
  · intro p
    cases p <;> rfl
  · decide

/-- C7: swap (and the std::swap specialization) exchanges the native
references of any two handles in any state combination, so their observed
ids and joinable results are exchanged symmetrically; being a total
non-throwing function, it never blocks and never fails. -/
theorem C7_swap (a b : Thread) (cur : DWORD) :
    Thread.swap a b = (Thread.mk b.handle, Thread.mk a.handle)
    ∧ ((Thread.swap a b).1.get_id cur = b.get_id cur
        ∧ (Thread.swap a b).2.get_id cur = a.get_id cur)
    ∧ ((Thread.swap a b).1.joinable cur = b.joinable cur
        ∧ (Thread.swap a b).2.joinable cur = a.joinable cur)
    ∧ stdSwap a b = Thread.swap a b :=
  ⟨rfl, ⟨rfl, rfl⟩, ⟨rfl, rfl⟩, rfl⟩

/-- C10: when the wait underlying join or timed join reports an OS-level
failure (neither termination nor timeout), the OS error is thrown before
the native reference is cleared: the object keeps the same handle and id,
joinable stays true, and a retried join can still succeed. -/
theorem C10_wait_failure (t : Thread) (cur : DWORD) (e : Nat)
    (hb : t.joinable cur = true) :
    t.join cur (InfWait.failed e) = (some (SysError.osError e), t)
    ∧ t.joinTimeout cur (WaitResult.failed e)
        = (some (SysError.osError e), false, t)
    ∧ (t.join cur (InfWait.failed e)).2.joinable cur = true
    ∧ (t.join cur (InfWait.failed e)).2.get_id cur = t.get_id cur
    ∧ ((t.join cur (InfWait.failed e)).2).join cur InfWait.object0
        = (none, Thread.mk none) := by
  refine ⟨?_, ?_, ?_, ?_, ?_⟩ <;>
    simp [Thread.join, Thread.joinTimeout, _join, InfWait.toWait, hb]

/-- Witness for C10 at a concrete LIVE handle and error code 31. -/
theorem C10_wait_failure_witness :
    (Thread.mk (some (HANDLE.mk 1 5))).join 0 (InfWait.failed 31)
        = (some (SysError.osError 31), Thread.mk (some (HANDLE.mk 1 5)))
    ∧ (Thread.mk (some (HANDLE.mk 1 5))).joinTimeout 0 (WaitResult.failed 31)
        = (some (SysError.osError 31), false, Thread.mk (some (HANDLE.mk 1 5))) := by
  have h := C10_wait_failure (Thread.mk (some (HANDLE.mk 1 5))) 0 31 (by decide)
  exact ⟨h.1, h.2.1⟩

/-- C5 counterexample: move-assignment executed by the very thread the
destination owns (calling thread id 7, destination handle with tid 7).
The destination is LIVE, yet joinable() is false, so no implicit join
happens and the swap hands the destination's old live handle to the
source: the source ends non-EMPTY, contradicting the claim that the
source of every move ends EMPTY after a LIVE destination is first
joined. -/
theorem C5_move_counterexample :
    ((Thread.mk (some (HANDLE.mk 1 7))).handle.isSome = true)
    ∧ Thread.moveAssign (Thread.mk (some (HANDLE.mk 1 7)))
        (Thread.mk (some (HANDLE.mk 2 9))) 7 InfWait.object0
        = (none, Thread.mk (some (HANDLE.mk 2 9)),
            Thread.mk (some (HANDLE.mk 1 7)))
    ∧ ((Thread.mk (some (HANDLE.mk 1 7))).handle ≠ none) := by
  refine ⟨rfl, ?_, by decide⟩
  decide

/-- C5 (amended): move-construction always leaves the source EMPTY and the
destination owning the source's original thread with its id preserved.
Move-assignment performs the implicit unbounded join exactly when the
destination is joinable (LIVE with an id differing from the calling
thread's); when that join succeeds, or the destination is EMPTY, the
source ends EMPTY and the destination owns the source's original thread;
a LIVE destination observed from its own thread is not joined and its
handle passes to the source through the swap; if the implicit join throws,
the error propagates before the swap and both objects keep their
handles. -/
theorem C5_move_semantics (src dst : Thread) (cur : DWORD) :
    (Thread.moveConstruct src = (Thread.mk src.handle, Thread.mk none))
    ∧ (∀ h : HANDLE, src.handle = some h →
        (Thread.moveConstruct src).1.get_id cur = ThreadId.mk h.tid)
    ∧ ((Thread.moveConstruct src).2.joinable cur = false
        ∧ (Thread.moveConstruct src).2.get_id cur = this_thread.get_id cur)
    ∧ (dst.joinable cur = true →
        dst.moveAssign src cur InfWait.object0
          = (none, Thread.mk src.handle, Thread.mk none))
    ∧ (dst.handle = none → ∀ res : InfWait,
        dst.moveAssign src cur res
          = (none, Thread.mk src.handle, Thread.mk none))
    ∧ (dst.joinable cur = false → ∀ res : InfWait,
        dst.moveAssign src cur res
          = (none, Thread.mk src.handle, Thread.mk dst.handle))
    ∧ (∀ e : Nat, dst.joinable cur = true →
        dst.moveAssign src cur (InfWait.failed e)
          = (some (SysError.osError e), dst, src)) := by
  refine ⟨rfl, ?_, ⟨joinable_none cur, rfl⟩, ?_, ?_, ?_, ?_⟩
  · intro h hh
    obtain ⟨hd⟩ := src
    cases hh
    rfl
  · intro hb
    simp [Thread.moveAssign, Thread.join, _join, InfWait.toWait, hb]
  · intro hh res
    have hb := joinable_eq_false_of_handle_none dst cur hh
    simp [Thread.moveAssign, hb, hh]
  · intro hb res
    simp [Thread.moveAssign, hb]
  · intro e hb
    simp [Thread.moveAssign, Thread.join, _join, InfWait.toWait, hb]

/-- Witness for C5 (amended): a successful move-assignment onto a joinable
destination and a move-construction, at concrete handles. -/
theorem C5_move_semantics_witness :
    Thread.moveAssign (Thread.mk (some (HANDLE.mk 1 5)))
        (Thread.mk (some (HANDLE.mk 2 9))) 0 InfWait.object0
      = (none, Thread.mk (some (HANDLE.mk 2 9)), Thread.mk none)
    ∧ Thread.moveConstruct (Thread.mk (some (HANDLE.mk 2 9)))
      = (Thread.mk (some (HANDLE.mk 2 9)), Thread.mk none) := by
  have h := C5_move_semantics (Thread.mk (some (HANDLE.mk 2 9)))
    (Thread.mk (some (HANDLE.mk 1 5))) 0
  exact ⟨h.2.2.2.1 (by decide), h.1⟩

/-- C8 counterexample: a LIVE handle observed from the thread it owns
(calling thread id 5, handle tid 5) is not EMPTY, yet native_handle()
fails with the invalid-operation error, because the source guards on
joinable() rather than on emptiness. -/
theorem C8_native_handle_counterexample :
    ((Thread.mk (some (HANDLE.mk 3 5))).handle.isSome = true)
    ∧ (Thread.mk (some (HANDLE.mk 3 5))).native_handle 5
        = Except.error (SysError.invalidOperation OpName.nativeHandleOp) := by
  exact ⟨rfl, rfl⟩

/-- C8 (amended): native_handle() returns the raw stored OS reference
whenever joinable() is true, and fails with the invalid-operation error
exactly when joinable() is false — that is, when the handle is EMPTY or
when a LIVE handle is observed from the owned thread itself; in
particular it always fails on an EMPTY handle. -/
theorem C8_native_handle (t : Thread) (cur : DWORD) :
    (t.joinable cur = true →
      t.native_handle cur = Except.ok t.handle ∧ t.handle.isSome = true)
    ∧ (t.joinable cur = false →
      t.native_handle cur
        = Except.error (SysError.invalidOperation OpName.nativeHandleOp))
    ∧ (t.handle = none →
      t.native_handle cur
        = Except.error (SysError.invalidOperation OpName.nativeHandleOp)) := by
  refine ⟨?_, ?_, ?_⟩
  · intro hb
    obtain ⟨hd⟩ := t
    cases hd with
    | none =>
      rw [joinable_none] at hb
      cases hb
    | some h => exact ⟨by simp [Thread.native_handle, hb], rfl⟩
  · intro hb
    simp [Thread.native_handle, hb]
  · intro hh
    have hb := joinable_eq_false_of_handle_none t cur hh
    simp [Thread.native_handle, hb]

/-- Witness for C8 (amended): a joinable handle yields its reference, an
EMPTY handle fails. -/
theorem C8_native_handle_witness :
    (Thread.mk (some (HANDLE.mk 3 5))).native_handle 0
      = Except.ok (some (HANDLE.mk 3 5))
    ∧ (Thread.mk none).native_handle 0
      = Except.error (SysError.invalidOperation OpName.nativeHandleOp) := by
  have h1 := C8_native_handle (Thread.mk (some (HANDLE.mk 3 5))) 0
  have h2 := C8_native_handle (Thread.mk none) 0
  exact ⟨(h1.1 (by decide)).1, h2.2.2 rfl⟩

/-- C9: for every Priority except TIME_CRITICAL, reading back the OS
priority value set at creation yields the same enumerator — the
set-then-get round trip over the enum is the identity. The getter is
modelled from the spec (see osToPriority). -/
theorem C9_priority_round_trip (p : Priority)
    (_hp : p ≠ Priority.TIME_CRITICAL) :
    osToPriority (priorityToOS p) = some p := by
  cases p <;> decide

/-- Witness for C9 at each non-TIME_CRITICAL enumerator is the same
shape; instantiate at LOWEST and HIGH. -/
theorem C9_priority_round_trip_witness :
    osToPriority (priorityToOS Priority.LOWEST) = some Priority.LOWEST
    ∧ osToPriority (priorityToOS Priority.HIGH) = some Priority.HIGH := by
  exact ⟨C9_priority_round_trip Priority.LOWEST (by decide),
    C9_priority_round_trip Priority.HIGH (by decide)⟩

end Simply
